import Mathlib

/-!
Formal model of the tansuodou firmware core, translated from
modules/tansuodou_main.py and modules/ota_manager.py: the WebSocket frame
codec, the control-message dispatcher, the execution sandbox and the OTA
engine.  Bytes are modelled as natural numbers (masking and padding are
explicit), byte strings as List Nat, and side effects as explicit event
lists.  Platform primitives (json serialization, uhashlib.sha256, exec with
captured output, the esp32 partition driver) are modelled as abstract
parameters or explicit state, as noted at each definition.
-/

namespace Tansuodou

/-! ## Byte-level helpers (int.from_bytes / int.to_bytes, big endian) -/

/-- Python int.from_bytes(bs, big): big-endian value of a byte list. -/
def fromBytesBE : List Nat → Nat
  | [] => 0
  | b :: bs => b * 256 ^ bs.length + fromBytesBE bs

/-- Python n.to_bytes(len, big): the low len bytes of n, most significant
    first. -/
def toBytesBE (n : Nat) : Nat → List Nat
  | 0 => []
  | len + 1 => (n / 256 ^ len) % 256 :: toBytesBE n len

/-! ## WebSocket frame codec (TansuodouDevice, tansuodou_main.py) -/

/-- the unmasking loop of parse_websocket_frame: byte i of the payload is
    XORed with mask[i % 4]. -/
def xorMask (mask : List Nat) : Nat → List Nat → List Nat
  | _, [] => []
  | i, b :: rest => (b ^^^ mask.getD (i % 4) 0) :: xorMask mask (i + 1) rest

/-- shared tail of TansuodouDevice.parse_websocket_frame once mask_start and
    payload_len are known: total-length check, 4-byte mask extraction, XOR
    unmasking.  none is the need-more-data result. -/
def parseFrameTail (data : List Nat) (mask_start payload_len : Nat) :
    Option (List Nat) :=
  let total_len := mask_start + 4 + payload_len
  if data.length < total_len then none
  else
    let mask := (data.drop mask_start).take 4
    if mask.length ≠ 4 then none
    else
      let payload := (data.drop (mask_start + 4)).take payload_len
      some (xorMask mask 0 payload)

/-- byte layer of TansuodouDevice.parse_websocket_frame: minimum-length check,
    7-bit length field with the 126 and 127 extension tiers, then
    parseFrameTail.  none is the need-more-data result; the mod 128 is the
    bitmask data[1] AND 0x7F of the code. -/
def parseFrameBytes (data : List Nat) : Option (List Nat) :=
  if data.length < 6 then none
  else
    let payload_len := data.getD 1 0 % 128
    if payload_len = 126 then
      if data.length < 8 then none
      else parseFrameTail data 4 (fromBytesBE ((data.drop 2).take 2))
    else if payload_len = 127 then
      if data.length < 14 then none
      else parseFrameTail data 10 (fromBytesBE ((data.drop 2).take 8))
    else
      parseFrameTail data 2 payload_len

/-- a UTF-8 continuation byte (0x80 to 0xBF). -/
def contByte (b : Nat) : Bool := decide (128 ≤ b ∧ b < 192)

/-- one step of the lenient UTF-8 decode: given a lead byte and the bytes
    after it, the characters produced (one for a valid sequence, none for an
    invalid or truncated one) and how many continuation bytes are consumed. -/
def utf8Step (b : Nat) (rest : List Nat) : List Char × Nat :=
  if b < 128 then ([Char.ofNat b], 0)
  else if 194 ≤ b ∧ b ≤ 223 then
    match rest with
    | c1 :: _ =>
      if contByte c1 then ([Char.ofNat ((b - 192) * 64 + (c1 - 128))], 1)
      else ([], 0)
    | [] => ([], 0)
  else if 224 ≤ b ∧ b ≤ 239 then
    match rest with
    | c1 :: c2 :: _ =>
      if contByte c1 ∧ contByte c2 ∧ ¬(b = 224 ∧ c1 < 160) ∧ ¬(b = 237 ∧ 160 ≤ c1) then
        ([Char.ofNat ((b - 224) * 4096 + (c1 - 128) * 64 + (c2 - 128))], 2)
      else ([], 0)
    | _ => ([], 0)
  else if 240 ≤ b ∧ b ≤ 244 then
    match rest with
    | c1 :: c2 :: c3 :: _ =>
      if contByte c1 ∧ contByte c2 ∧ contByte c3 ∧ ¬(b = 240 ∧ c1 < 144) ∧ ¬(b = 244 ∧ 144 ≤ c1) then
        ([Char.ofNat ((b - 240) * 262144 + (c1 - 128) * 4096 + (c2 - 128) * 64 + (c3 - 128))], 3)
      else ([], 0)
    | _ => ([], 0)
  else ([], 0)

/-- model of the platform call decoded.decode(utf-8, ignore) at the end of
    parse_websocket_frame: valid UTF-8 sequences decode to their code point
    and bytes that do not open or continue a valid sequence are skipped
    instead of failing the whole frame. -/
def utf8DecodeIgnoreGo : Nat → List Nat → List Char
  | _, [] => []
  | 0, _ :: _ => []
  | fuel + 1, b :: rest =>
    let s := utf8Step b rest
    s.1 ++ utf8DecodeIgnoreGo fuel (rest.drop s.2)

/-- the lenient decode of a whole buffer; the fuel, one unit per input byte,
    is only a structural-recursion device and never runs out, since every
    step consumes at least one byte. -/
def utf8DecodeIgnore (l : List Nat) : List Char := utf8DecodeIgnoreGo l.length l

/-- TansuodouDevice.parse_websocket_frame: the byte layer followed by the
    lenient text decode.  none is the need-more-data result; the function is
    total, mirroring the try/except that turns any parse failure into None. -/
def parse_websocket_frame (data : List Nat) : Option String :=
  (parseFrameBytes data).map (fun bs => String.mk (utf8DecodeIgnore bs))

/-- frame built by TansuodouDevice.send_websocket_message for an outbound
    message whose UTF-8 bytes are msgBytes: header byte 0x81 (FIN plus text
    opcode), three-tier length field, payload appended without a mask
    (server-to-client frames are unmasked). -/
def send_websocket_frame (msgBytes : List Nat) : List Nat :=
  let length := msgBytes.length
  let lenBytes :=
    if length < 126 then [length]
    else if length < 65536 then 126 :: toBytesBE length 2
    else 127 :: toBytesBE length 8
  129 :: lenBytes ++ msgBytes

/-- a masked client-side frame carrying the same header byte and three-tier
    length field that send_websocket_frame produces, but with the mask bit
    (0x80) set on the length byte, a 4-byte mask inserted, and the payload
    XOR-masked, as the decoder expects from a client. -/
def maskedClientFrame (mask payload : List Nat) : List Nat :=
  let length := payload.length
  let lenBytes :=
    if length < 126 then [128 + length]
    else if length < 65536 then 254 :: toBytesBE length 2
    else 255 :: toBytesBE length 8
  129 :: lenBytes ++ mask ++ xorMask mask 0 payload

/-! ## OTA engine (OTAManager, modules/ota_manager.py) -/

/-- one observable action of the OTA engine: a progress-callback invocation
    (stage, percentage, message) or a flash or partition operation. -/
inductive OtaEvent
  | report (stage : String) (progress : Nat) (message : String)
  | erase
  | write (block : Nat) (data : List Nat)
  | setBoot
  | reset
  deriving DecidableEq

/-- contents of the update-target partition, block index to block bytes. -/
def Flash : Type := Nat → List Nat

/-- the partition after Partition.erase: every block reads back as erased
    flash (0xFF bytes). -/
def erasedFlash : Flash := fun _ => List.replicate 4096 255

/-- esp32 Partition.get_next_update over the two application slots: the
    update target is always the slot that is not currently running. -/
def get_next_update (running : Bool) : Bool := !running

/-- the in-loop progress message str(downloaded) + " / " + str(expected)
    + " bytes". -/
def dlMsg (downloaded expected : Nat) : String :=
  toString downloaded ++ " / " ++ toString expected ++ " bytes"

/-- download loop of OTAManager.download_firmware: one iteration per chunk
    returned by response.raw.read(4096), stopping at the first empty chunk.
    A full 4096-byte chunk is written as-is; a shorter chunk is padded to
    4096 bytes with 0xFF and written as a whole block; the block index is
    write_offset divided by 4096.  The progress expression
    10 + int(downloaded / expected * 80) is modelled with exact integer
    division; a report is emitted when downloaded is a multiple of 64 KiB or
    equals the declared size.  Returns (events, flash, downloaded). -/
def downloadLoop (chunks : List (List Nat)) (flash : Flash)
    (write_offset downloaded expected : Nat) : List OtaEvent × Flash × Nat :=
  match chunks with
  | [] => ([], flash, downloaded)
  | chunk :: rest =>
    if chunk = [] then ([], flash, downloaded)
    else
      let chunk_len := chunk.length
      let buf := if chunk_len = 4096 then chunk
                 else chunk ++ List.replicate (4096 - chunk_len) 255
      let block := write_offset / 4096
      let flash1 : Flash := fun i => if i = block then buf else flash i
      let downloaded1 := downloaded + chunk_len
      let progress := 10 + downloaded1 * 80 / expected
      let reps : List OtaEvent :=
        if downloaded1 % 65536 = 0 ∨ downloaded1 = expected then
          [.report "download" progress (dlMsg downloaded1 expected)]
        else []
      let r := downloadLoop rest flash1 (write_offset + chunk_len) downloaded1 expected
      (.write block buf :: reps ++ r.1, r.2)

/-- result of one download_firmware run: the emitted events, the final
    contents of the target partition, and the byte counter returned. -/
structure DownloadRun where
  events : List OtaEvent
  flash : Flash
  downloaded : Nat

/-- OTAManager.download_firmware: select the next-update partition, report,
    erase it, then stream the chunks through downloadLoop and report
    completion.  The chunks list stands for the successive return values of
    response.raw.read(4096) on the network stream. -/
def download_firmware (chunks : List (List Nat)) (expected : Nat) : DownloadRun :=
  let r := downloadLoop chunks erasedFlash 0 0 expected
  { events :=
      [.report "download" 0 "准备下载固件...",
       .report "download" 5 "擦除Flash分区...",
       .erase,
       .report "download" 10 "开始下载固件..."]
      ++ r.1
      ++ [.report "download" 100 ("下载完成: " ++ toString r.2.2 ++ " bytes")]
    flash := r.2.1
    downloaded := r.2.2 }

/-- verify loop of OTAManager.verify_firmware: read whole 4096-byte blocks
    back from the target partition, feed the first read_size bytes of each to
    the digest, and report every time the integer percentage is a multiple of
    20.  Returns the concatenation of all digested bytes and the events.  The
    fuel argument, one unit per remaining byte, is only a structural-recursion
    device: every iteration consumes at least one byte, so it never runs out. -/
def verifyLoopGo (flash : Flash) : Nat → Nat → Nat → List Nat × List OtaEvent
  | 0, _, _ => ([], [])
  | fuel + 1, verified, actual_size =>
    if verified < actual_size then
      let read_size := min 4096 (actual_size - verified)
      let chunk := flash (verified / 4096)
      let verified1 := verified + read_size
      let progress := verified1 * 100 / actual_size
      let reps : List OtaEvent :=
        if progress % 20 = 0 then [.report "verify" progress "校验中..."] else []
      let r := verifyLoopGo flash fuel verified1 actual_size
      (chunk.take read_size ++ r.1, reps ++ r.2)
    else ([], [])

/-- the while loop of verify_firmware, entered with the byte counter at
    verified. -/
def verifyLoop (flash : Flash) (verified actual_size : Nat) :
    List Nat × List OtaEvent :=
  verifyLoopGo flash (actual_size - verified) verified actual_size

/-- OTAManager.verify_firmware, with the platform digest (uhashlib.sha256
    updated incrementally, then ubinascii.hexlify) abstracted as a function
    sha256hex from the digested bytes to the hex string. -/
def verify_firmware (sha256hex : List Nat → String) (flash : Flash)
    (expected_checksum : String) (actual_size : Nat) : Bool × List OtaEvent :=
  let r := verifyLoop flash 0 actual_size
  let checksum := sha256hex r.1
  if checksum = expected_checksum then
    (true, .report "verify" 0 "开始校验固件..." :: r.2
      ++ [.report "verify" 100 "校验成功"])
  else
    (false, .report "verify" 0 "开始校验固件..." :: r.2
      ++ [.report "verify" 0 ("校验失败 - 计算: " ++ checksum.take 16
            ++ "... != 期望: " ++ expected_checksum.take 16 ++ "...")])

/-- OTAManager.activate_and_reboot: mark the target partition as the next
    boot target, report a 3-second countdown, then machine.reset. -/
def activate_and_reboot : List OtaEvent :=
  [.report "activate" 0 "准备切换固件...",
   .setBoot,
   .report "activate" 50 "已设置启动分区",
   .report "activate" 80 "3秒后重启...",
   .report "activate" 70 "2秒后重启...",
   .report "activate" 60 "1秒后重启...",
   .report "activate" 100 "重启设备...",
   .reset]

/-- the update_info dictionary handed to perform_ota_update. -/
structure UpdateInfo where
  version : String
  url : String
  size : Nat
  checksum : String
  deriving DecidableEq

/-- result of one perform_ota_update run: all emitted events and whether
    activate_and_reboot was reached (the True return of the code). -/
structure OtaRun where
  events : List OtaEvent
  activated : Bool

/-- OTAManager.perform_ota_update: download, size check, verify, activate.
    A raised size-mismatch or a failed verification is caught by the outer
    except, which reports stage error and returns False without reaching
    activate_and_reboot. -/
def perform_ota_update (sha256hex : List Nat → String)
    (chunks : List (List Nat)) (info : UpdateInfo) : OtaRun :=
  let dl := download_firmware chunks info.size
  if dl.downloaded ≠ info.size then
    { events := dl.events
        ++ [.report "error" 0 ("OTA失败: 下载大小不匹配: "
              ++ toString dl.downloaded ++ " != " ++ toString info.size)]
      activated := false }
  else
    let v := verify_firmware sha256hex dl.flash info.checksum dl.downloaded
    if v.1 = false then
      { events := dl.events ++ v.2 ++ [.report "error" 0 "OTA失败: 固件校验失败"]
        activated := false }
    else
      { events := dl.events ++ v.2 ++ activate_and_reboot
        activated := true }

/-- block indexes passed to writeblocks, in call order. -/
def writeBlocks : List OtaEvent → List Nat
  | [] => []
  | .write b _ :: rest => b :: writeBlocks rest
  | _ :: rest => writeBlocks rest

/-- scan that holds exactly when an erase event occurs before the first
    write event (vacuously when no write occurs before the end). -/
def erasedBeforeWrites : List OtaEvent → Bool
  | [] => true
  | .erase :: _ => true
  | .write _ _ :: _ => false
  | _ :: rest => erasedBeforeWrites rest

/-- true for a progress-report event. -/
def isReport : OtaEvent → Bool
  | .report _ _ _ => true
  | _ => false

/-- the download-stream shape the spec assumes: every chunk is a full
    4096-byte block except possibly a shorter, nonempty final chunk. -/
def fullButLast : List (List Nat) → Bool
  | [] => true
  | [c] => decide (0 < c.length ∧ c.length ≤ 4096)
  | c :: rest => decide (c.length = 4096) && fullButLast rest

/-- total number of payload bytes in a chunk list. -/
def sumLen (chunks : List (List Nat)) : Nat :=
  (chunks.map List.length).sum

/-! ## Dispatcher, sessions and the execution sandbox (tansuodou_main.py) -/

/-- firmware version constant of modules/ota_manager.py. -/
def FIRMWARE_VERSION : String := "2.0.2"

/-- one observable action of the dispatcher or the execution sandbox.
    sendReply carries the type field and the data field of the JSON reply
    object built with json.dumps (serialization abstracted away). -/
inductive Effect
  | sendReply (conn : Nat) (rtype : String) (rdata : String)
  | startOtaThread (conn : Nat) (info : Option UpdateInfo)
  | setStopFlag (b : Bool)
  | sleepGrace
  | startUserThread (code : String)
  | execInline (code : String)
  | writeFile (path content : String)
  | deleteFile (path : String)
  | closeConn (conn : Nat)
  deriving DecidableEq

/-- the device state the dispatcher reads and writes: the connected-client
    list, the single user-code thread slot with its shared stop flag, the
    main.py running marker, a flat view of the file system, and the number of
    OTA worker threads started so far (the code keeps no job-state variable
    at all, so started threads are the only trace of non-IDLE jobs). -/
structure DeviceState where
  wsClients : List Nat
  userCodeThread : Option String
  stopFlag : Bool
  mainPyRunning : Bool
  files : List (String × String)
  otaJobsStarted : Nat
  deriving DecidableEq

/-- substring membership test, Python operator needle in hay. -/
def strContains (hay needle : String) : Bool :=
  (List.range (hay.toList.length + 1)).any
    (fun i => ((hay.toList.drop i).take needle.toList.length) == needle.toList)

/-- the unbounded-loop detection of execute_temporary_code. -/
def hasInfiniteLoop (code : String) : Bool :=
  strContains code "while True" || strContains code "while 1"

/-- result of the platform exec with stdout and stderr captured into
    buffers: the captured error text (checked first by the code) and the
    captured output text, both already right-stripped. -/
structure ExecCapture where
  errText : String
  outText : String

/-- TansuodouDevice.stop_user_code: if a temporary-program thread exists,
    set the shared stop flag, sleep a 0.3-second grace period and clear the
    slot; then, if main.py is marked running, set the stop flag again and
    clear the marker (cooperative only).  The final gc.collect has no
    observable effect and is omitted. -/
def stop_user_code (st : DeviceState) : List Effect × DeviceState :=
  let r1 :=
    if st.userCodeThread ≠ none then
      (([Effect.setStopFlag true, Effect.sleepGrace] : List Effect),
       { st with stopFlag := true, userCodeThread := none })
    else ([], st)
  if r1.2.mainPyRunning then
    (r1.1 ++ [Effect.setStopFlag true],
     { r1.2 with stopFlag := true, mainPyRunning := false })
  else r1

/-- TansuodouDevice.execute_temporary_code: always stop the previous program
    first; code containing an unbounded-loop pattern is promoted to a
    background thread after clearing the stop flag, and the single reply only
    confirms the background start; other code runs inline via the platform
    exec (abstracted as capture) and the single reply carries the captured
    error text, else the captured output, else a fixed success note. -/
def execute_temporary_code (capture : String → ExecCapture) (st : DeviceState)
    (code : String) (conn : Nat) : List Effect × DeviceState :=
  let s := stop_user_code st
  if hasInfiniteLoop code then
    (s.1 ++ [Effect.setStopFlag false, Effect.startUserThread code,
       Effect.sendReply conn "output" "✅ [立即运行] 程序已在后台启动\n发送 Ctrl+C 可停止程序"],
     { s.2 with stopFlag := false, userCodeThread := some code })
  else
    let c := capture code
    let reply :=
      if c.errText ≠ "" then Effect.sendReply conn "error" c.errText
      else if c.outText ≠ "" then Effect.sendReply conn "output" c.outText
      else Effect.sendReply conn "output" "✅ [立即运行] 执行成功"
    (s.1 ++ [Effect.execInline code, reply], s.2)

/-- Python str.replace over the character list: every occurrence of pat
    replaced by rep, scanning left to right; the fuel, one unit per input
    character, is only a structural-recursion device. -/
def strReplaceGo (pat rep : List Char) : Nat → List Char → List Char
  | _, [] => []
  | 0, l => l
  | fuel + 1, c :: rest =>
    if pat ≠ [] ∧ (c :: rest).take pat.length = pat then
      rep ++ strReplaceGo pat rep fuel ((c :: rest).drop pat.length)
    else c :: strReplaceGo pat rep fuel rest

/-- Python str.replace (the platform String.replace restated over characters
    so that it evaluates). -/
def strReplace (s pat rep : String) : String :=
  String.mk (strReplaceGo pat.toList rep.toList s.toList.length s.toList)

/-- overwrite path in the flat file-system view (open with mode w). -/
def setFile (files : List (String × String)) (path content : String) :
    List (String × String) :=
  (path, content) :: files.filter (fun kv => kv.1 ≠ path)

/-- TansuodouDevice.save_persistent_code: stop a running main.py first, write
    the code verbatim to / plus filename, and send one confirmation reply
    whose text depends on whether the file is main.py (only the main.py text
    mentions restarting; the other text explains importing the module). -/
def save_persistent_code (st : DeviceState) (code filename : String)
    (conn : Nat) : List Effect × DeviceState :=
  let s :=
    if st.mainPyRunning then
      let r := stop_user_code st
      (r.1, { r.2 with mainPyRunning := false })
    else ([], st)
  let st1 := { s.2 with files := setFile s.2.files ("/" ++ filename) code }
  let reply :=
    if filename = "main.py" then
      Effect.sendReply conn "output"
        "✅ [保存到设备] 代码已永久保存 (main.py)\n💾 开机自动运行：设备重启后自动执行\n🔄 发送 reboot 命令可重启设备"
    else
      Effect.sendReply conn "output"
        ("✅ [保存到设备] 代码已保存为 " ++ filename ++ "\n💡 使用 import "
          ++ strReplace filename ".py" "" ++ " 加载此模块")
  (s.1 ++ [Effect.writeFile ("/" ++ filename) code, reply], st1)

/-- TansuodouDevice.list_files: reply with the file_list message; the
    directory listing serialization is abstracted to the stored paths. -/
def list_files (st : DeviceState) (path : String) (conn : Nat) :
    List Effect × DeviceState :=
  ([Effect.sendReply conn "file_list"
      (path ++ ":" ++ String.intercalate "," (st.files.map Prod.fst))], st)

/-- TansuodouDevice.delete_file: os.remove then a confirmation, or an error
    reply when the file does not exist; deleting /main.py clears the
    main.py running marker. -/
def delete_file (st : DeviceState) (path : String) (conn : Nat) :
    List Effect × DeviceState :=
  if (st.files.lookup path).isSome then
    ([Effect.deleteFile path,
      Effect.sendReply conn "output" ("✅ 文件已删除: " ++ path)],
     { st with
        files := st.files.filter (fun kv => kv.1 ≠ path)
        mainPyRunning := if path = "/main.py" then false else st.mainPyRunning })
  else
    ([Effect.sendReply conn "error" ("删除文件失败: " ++ path)], st)

/-- TansuodouDevice.read_file: reply with the file content, or an error reply
    when the file does not exist. -/
def read_file (st : DeviceState) (path : String) (conn : Nat) :
    List Effect × DeviceState :=
  match st.files.lookup path with
  | some content => ([Effect.sendReply conn "file_content" (path ++ ":" ++ content)], st)
  | none => ([Effect.sendReply conn "error" ("读取文件失败: " ++ path)], st)

/-- payload shapes that data.get(data, default empty dict) can take for an
    execute command, as read by handle_message: a dict carrying a mode key
    (command defaulting to the empty string, filename to main.py), a dict
    without a mode key (command defaulting to the empty string, which also
    covers a missing data field), or a non-dict value already converted with
    str (the empty string when the value is falsy). -/
inductive ExecPayload
  | withMode (mode command filename : String)
  | noMode (command : String)
  | rawText (s : String)
  deriving DecidableEq

/-- the fields of a decoded JSON control message that handle_message reads.
    json.loads and dict access are platform primitives, so a message is
    modelled by these fields directly; path carries its default /. -/
structure ControlMsg where
  type? : Option String
  execPayload : ExecPayload
  operation? : Option String
  path : String
  otaInfo? : Option UpdateInfo
  deriving DecidableEq

/-- environment of one handle_message call: the wall clock read for the pong
    timestamp, the platform exec capture, and the outcome of the
    check_for_updates network call (ok carries the serialized result sent
    back, error the exception text). -/
structure DispatchEnv where
  now : Nat
  capture : String → ExecCapture
  otaCheck : Except String String

/-- the info reply data: device identity fields and the firmware version
    from ota_manager.get_firmware_info, serialization abstracted. -/
def firmwareInfoData : String := "v" ++ FIRMWARE_VERSION

/-- TansuodouDevice.handle_message: dispatch one decoded control message.
    A message that json.loads failed to parse is the none case: the outer
    except only logs, so no reply is sent and nothing changes.  A message
    whose type field is missing or matches no branch falls through the
    if/elif chain the same silent way.  A file_operation without an operation
    field raises inside the unsupported-operation string concatenation and is
    swallowed by the same outer except.  An ota_update always starts a new
    worker thread and acknowledges with ota_started: there is no busy check
    and no job-state consultation anywhere in the branch. -/
def handle_message (env : DispatchEnv) (st : DeviceState) (conn : Nat)
    (msg? : Option ControlMsg) : List Effect × DeviceState :=
  match msg? with
  | none => ([], st)
  | some m =>
    match m.type? with
    | none => ([], st)
    | some t =>
      if t = "ping" then
        ([Effect.sendReply conn "pong" (toString env.now)], st)
      else if t = "execute" then
        match m.execPayload with
        | .withMode mode cmd fname =>
          if mode = "persistent" then save_persistent_code st cmd fname conn
          else if mode = "temporary" then execute_temporary_code env.capture st cmd conn
          else ([Effect.sendReply conn "error" ("未知的上传模式: " ++ mode)], st)
        | .noMode cmd => execute_temporary_code env.capture st cmd conn
        | .rawText s => execute_temporary_code env.capture st s conn
      else if t = "file_operation" then
        match m.operation? with
        | some op =>
          if op = "list" then list_files st m.path conn
          else if op = "delete" then delete_file st m.path conn
          else if op = "read" then read_file st m.path conn
          else ([Effect.sendReply conn "error" ("不支持的文件操作: " ++ op)], st)
        | none => ([], st)
      else if t = "info" then
        ([Effect.sendReply conn "info" firmwareInfoData], st)
      else if t = "ota_check" then
        match env.otaCheck with
        | .ok r => ([Effect.sendReply conn "ota_check_result" r], st)
        | .error e => ([Effect.sendReply conn "error" ("OTA检查失败: " ++ e)], st)
      else if t = "ota_update" then
        ([Effect.startOtaThread conn m.otaInfo?,
          Effect.sendReply conn "ota_started" "OTA升级已启动"],
         { st with otaJobsStarted := st.otaJobsStarted + 1 })
      else ([], st)

/-- true for a sendReply effect. -/
def isReply : Effect → Bool
  | .sendReply _ _ _ => true
  | _ => false

/-- true for a sendReply effect whose type field is error. -/
def isErrorReply : Effect → Bool
  | .sendReply _ t _ => t == "error"
  | _ => false

/-- true for an effect that runs submitted code (inline or in a thread). -/
def runsCode : Effect → Bool
  | .execInline _ => true
  | .startUserThread _ => true
  | _ => false

/-- Bool test for a strictly increasing number list. -/
def strictlyIncreasing : List Nat → Bool
  | [] => true
  | [_] => true
  | a :: b :: rest => decide (a < b) && strictlyIncreasing (b :: rest)

/-! ## Concrete instances used by counterexamples and witnesses -/

/-- a concrete stand-in for the abstract SHA-256 hex digest. -/
def wOkHash : List Nat → String := fun bs => if bs = [7, 7, 7] then "ok" else "bad"

/-- concrete update info: declared size 3, declared checksum matching wOkHash
    on the payload 7 7 7. -/
def wInfo : UpdateInfo := ⟨"v", "u", 3, "ok"⟩

/-- a concrete exec capture producing no output. -/
def exampleCapture : String → ExecCapture := fun _ => ⟨"", ""⟩

/-- a concrete dispatch environment. -/
def exampleEnv : DispatchEnv := ⟨0, exampleCapture, Except.ok "r"⟩

/-- a concrete device state: one client, no user program running. -/
def exampleState : DeviceState := ⟨[1], none, false, false, [], 0⟩

/-- a concrete device state with a background user program running. -/
def exampleStateThread : DeviceState := ⟨[1], some "old", false, false, [], 0⟩

/-- a concrete ota_update control message. -/
def exampleOtaMsg : ControlMsg :=
  ⟨some "ota_update", ExecPayload.noMode "", none, "/", some ⟨"v", "u", 100, "c"⟩⟩

/-- a concrete control message with an unrecognized type. -/
def exampleBogusMsg : ControlMsg := ⟨some "bogus", ExecPayload.noMode "", none, "/", none⟩

/-- a concrete persistent-mode execute message targeting foo.py. -/
def exampleFooMsg : ControlMsg :=
  ⟨some "execute", ExecPayload.withMode "persistent" "print(1)" "foo.py", none, "/", none⟩

/-- a concrete persistent-mode execute message targeting main.py. -/
def exampleMainMsg : ControlMsg :=
  ⟨some "execute", ExecPayload.withMode "persistent" "print(1)" "main.py", none, "/", none⟩

/-- a download stream of 219 short 300-byte reads, 65700 bytes in total:
    more than 64 KiB with no byte counter ever on a 64 KiB boundary. -/
def c7chunks : List (List Nat) := List.replicate 219 (List.replicate 300 1)

/-- one full 4 KiB chunk. -/
def fullChunk : List Nat := List.replicate 4096 1

/-- a download stream of 16 full 4 KiB chunks, exactly 64 KiB. -/
def w7chunks : List (List Nat) :=
  [fullChunk, fullChunk, fullChunk, fullChunk, fullChunk, fullChunk, fullChunk,
   fullChunk, fullChunk, fullChunk, fullChunk, fullChunk, fullChunk, fullChunk,
   fullChunk, fullChunk]

/-!
# Theorems

Helper lemmas first, then one theorem per claim, each with its witness or
counterexample where applicable.
-/

/-! ## Codec lemmas -/

theorem length_toBytesBE (n len : Nat) : (toBytesBE n len).length = len := by
  induction len with
  | zero => rfl
  | succ k ih => simp [toBytesBE, ih]

theorem fromBytesBE_toBytesBE (n len : Nat) :
    fromBytesBE (toBytesBE n len) = n % 256 ^ len := by
  induction len with
  | zero => simp [toBytesBE, fromBytesBE, Nat.mod_one]
  | succ k ih =>
      rw [toBytesBE, fromBytesBE, ih, length_toBytesBE, pow_succ, Nat.mod_mul]
      ring

theorem fromBytesBE_toBytesBE_of_lt {n len : Nat} (h : n < 256 ^ len) :
    fromBytesBE (toBytesBE n len) = n := by
  rw [fromBytesBE_toBytesBE, Nat.mod_eq_of_lt h]

theorem length_xorMask (mask : List Nat) (i : Nat) (l : List Nat) :
    (xorMask mask i l).length = l.length := by
  induction l generalizing i with
  | nil => rfl
  | cons b rest ih => simp [xorMask, ih]

theorem xorMask_xorMask (mask : List Nat) (i : Nat) (l : List Nat) :
    xorMask mask i (xorMask mask i l) = l := by
  induction l generalizing i with
  | nil => rfl
  | cons b rest ih =>
      simp only [xorMask, List.cons.injEq]
      refine ⟨?_, ih (i + 1)⟩
      rw [Nat.xor_assoc, Nat.xor_self, Nat.xor_zero]

theorem parseFrameTail_exact (pre mask payload : List Nat) (hm : mask.length = 4) :
    parseFrameTail (pre ++ (mask ++ xorMask mask 0 payload)) pre.length payload.length
      = some payload := by
  have hx : (xorMask mask 0 payload).length = payload.length := length_xorMask mask 0 payload
  have h1 : (pre ++ (mask ++ xorMask mask 0 payload)).drop pre.length
      = mask ++ xorMask mask 0 payload := List.drop_left pre _
  have h2 : (mask ++ xorMask mask 0 payload).take 4 = mask := List.take_left' hm
  have h3 : (pre ++ (mask ++ xorMask mask 0 payload)).drop (pre.length + 4)
      = xorMask mask 0 payload := by
    rw [← List.append_assoc]
    refine List.drop_left' ?_
    simp [List.length_append, hm]
  have h4 : (xorMask mask 0 payload).take payload.length = xorMask mask 0 payload := by
    rw [← hx]; exact List.take_length _
  have hlen : (pre ++ (mask ++ xorMask mask 0 payload)).length
      = pre.length + 4 + payload.length := by
    simp [List.length_append, hm, hx]; omega
  unfold parseFrameTail
  rw [hlen, h1, h2]
  rw [if_neg (by omega), if_neg (by rw [hm]; exact fun h => h rfl)]
  rw [h3, h4]
  show some (xorMask mask 0 (xorMask mask 0 payload)) = some payload
  rw [xorMask_xorMask]

theorem parseFrameBytes_short (data : List Nat) (h : data.length < 6) :
    parseFrameBytes data = none := by
  simp only [parseFrameBytes]
  rw [if_pos h]

theorem parseFrameTail_none (data : List Nat) (mask_start payload_len : Nat)
    (h : data.length < mask_start + 4 + payload_len) :
    parseFrameTail data mask_start payload_len = none := by
  simp only [parseFrameTail]
  rw [if_pos h]

theorem parseFrameBytes_tier1 (data : List Nat) (h6 : ¬ data.length < 6)
    (hlt : data.getD 1 0 % 128 < 126) :
    parseFrameBytes data = parseFrameTail data 2 (data.getD 1 0 % 128) := by
  simp only [parseFrameBytes]
  rw [if_neg h6, if_neg (show ¬ data.getD 1 0 % 128 = 126 by omega),
    if_neg (show ¬ data.getD 1 0 % 128 = 127 by omega)]

theorem parseFrameBytes_tier2 (data : List Nat) (h6 : ¬ data.length < 6)
    (hmark : data.getD 1 0 % 128 = 126) (h8 : ¬ data.length < 8) :
    parseFrameBytes data
      = parseFrameTail data 4 (fromBytesBE ((data.drop 2).take 2)) := by
  simp only [parseFrameBytes]
  rw [if_neg h6, if_pos hmark, if_neg h8]

theorem parseFrameBytes_tier2_short (data : List Nat) (h6 : ¬ data.length < 6)
    (hmark : data.getD 1 0 % 128 = 126) (h8 : data.length < 8) :
    parseFrameBytes data = none := by
  simp only [parseFrameBytes]
  rw [if_neg h6, if_pos hmark, if_pos h8]

theorem parseFrameBytes_tier3 (data : List Nat) (h6 : ¬ data.length < 6)
    (hmark : data.getD 1 0 % 128 = 127) (h14 : ¬ data.length < 14) :
    parseFrameBytes data
      = parseFrameTail data 10 (fromBytesBE ((data.drop 2).take 8)) := by
  simp only [parseFrameBytes]
  rw [if_neg h6, if_neg (show ¬ data.getD 1 0 % 128 = 126 by omega),
    if_pos hmark, if_neg h14]

theorem parseFrameBytes_tier3_short (data : List Nat) (h6 : ¬ data.length < 6)
    (hmark : data.getD 1 0 % 128 = 127) (h14 : data.length < 14) :
    parseFrameBytes data = none := by
  simp only [parseFrameBytes]
  rw [if_neg h6, if_neg (show ¬ data.getD 1 0 % 128 = 126 by omega),
    if_pos hmark, if_pos h14]

theorem parse_maskedClientFrame (mask payload : List Nat) (hm : mask.length = 4)
    (hsz : payload.length < 256 ^ 8) :
    parseFrameBytes (maskedClientFrame mask payload) = some payload := by
  have hx : (xorMask mask 0 payload).length = payload.length := length_xorMask mask 0 payload
  by_cases h1 : payload.length < 126
  · -- one-byte length field
    have hframe : maskedClientFrame mask payload
        = ([129, 128 + payload.length] : List Nat) ++ (mask ++ xorMask mask 0 payload) := by
      simp [maskedClientFrame, h1]
    have hlen : (([129, 128 + payload.length] : List Nat)
        ++ (mask ++ xorMask mask 0 payload)).length = 6 + payload.length := by
      simp [List.length_append, hm, hx]; omega
    have hgd : (([129, 128 + payload.length] : List Nat)
        ++ (mask ++ xorMask mask 0 payload)).getD 1 0 = 128 + payload.length := rfl
    have hpl : (([129, 128 + payload.length] : List Nat)
        ++ (mask ++ xorMask mask 0 payload)).getD 1 0 % 128 = payload.length := by
      rw [hgd]; omega
    rw [hframe, parseFrameBytes_tier1 _ (by rw [hlen]; omega) (by rw [hpl]; omega), hpl]
    exact parseFrameTail_exact [129, 128 + payload.length] mask payload hm
  · by_cases h2 : payload.length < 65536
    · -- two-byte extended length field
      have hframe : maskedClientFrame mask payload
          = (129 :: 254 :: toBytesBE payload.length 2) ++ (mask ++ xorMask mask 0 payload) := by
        simp [maskedClientFrame, h1, h2]
      have hlen : ((129 :: 254 :: toBytesBE payload.length 2)
          ++ (mask ++ xorMask mask 0 payload)).length = 8 + payload.length := by
        simp [List.length_append, hm, hx, length_toBytesBE]; omega
      have hgd : ((129 :: 254 :: toBytesBE payload.length 2)
          ++ (mask ++ xorMask mask 0 payload)).getD 1 0 = 254 := rfl
      have hpl : ((129 :: 254 :: toBytesBE payload.length 2)
          ++ (mask ++ xorMask mask 0 payload)).getD 1 0 % 128 = 126 := by simp [hgd]
      have hdrop : ((129 :: 254 :: toBytesBE payload.length 2)
          ++ (mask ++ xorMask mask 0 payload)).drop 2
          = toBytesBE payload.length 2 ++ (mask ++ xorMask mask 0 payload) := rfl
      have htake : (toBytesBE payload.length 2 ++ (mask ++ xorMask mask 0 payload)).take 2
          = toBytesBE payload.length 2 := List.take_left' (length_toBytesBE _ _)
      have hval : fromBytesBE (toBytesBE payload.length 2) = payload.length :=
        fromBytesBE_toBytesBE_of_lt (by norm_num; omega)
      rw [hframe, parseFrameBytes_tier2 _ (by rw [hlen]; omega) hpl (by rw [hlen]; omega),
        hdrop, htake, hval]
      exact parseFrameTail_exact (129 :: 254 :: toBytesBE payload.length 2) mask payload hm
    · -- eight-byte extended length field
      have hframe : maskedClientFrame mask payload
          = (129 :: 255 :: toBytesBE payload.length 8) ++ (mask ++ xorMask mask 0 payload) := by
        simp [maskedClientFrame, h1, h2]
      have hlen : ((129 :: 255 :: toBytesBE payload.length 8)
          ++ (mask ++ xorMask mask 0 payload)).length = 14 + payload.length := by
        simp [List.length_append, hm, hx, length_toBytesBE]; omega
      have hgd : ((129 :: 255 :: toBytesBE payload.length 8)
          ++ (mask ++ xorMask mask 0 payload)).getD 1 0 = 255 := rfl
      have hpl : ((129 :: 255 :: toBytesBE payload.length 8)
          ++ (mask ++ xorMask mask 0 payload)).getD 1 0 % 128 = 127 := by simp [hgd]
      have hdrop : ((129 :: 255 :: toBytesBE payload.length 8)
          ++ (mask ++ xorMask mask 0 payload)).drop 2
          = toBytesBE payload.length 8 ++ (mask ++ xorMask mask 0 payload) := rfl
      have htake : (toBytesBE payload.length 8 ++ (mask ++ xorMask mask 0 payload)).take 8
          = toBytesBE payload.length 8 := List.take_left' (length_toBytesBE _ _)
      have hval : fromBytesBE (toBytesBE payload.length 8) = payload.length :=
        fromBytesBE_toBytesBE_of_lt hsz
      rw [hframe, parseFrameBytes_tier3 _ (by rw [hlen]; omega) hpl (by rw [hlen]; omega),
        hdrop, htake, hval]
      exact parseFrameTail_exact (129 :: 255 :: toBytesBE payload.length 8) mask payload hm

theorem parse_send_none (payload : List Nat) (hsz : payload.length < 256 ^ 8) :
    parseFrameBytes (send_websocket_frame payload) = none := by
  by_cases h1 : payload.length < 126
  · have hframe : send_websocket_frame payload
        = ([129, payload.length] : List Nat) ++ payload := by
      simp [send_websocket_frame, h1]
    have hlen : (([129, payload.length] : List Nat) ++ payload).length
        = 2 + payload.length := by simp [List.length_append]; omega
    rw [hframe]
    by_cases h6 : 2 + payload.length < 6
    · exact parseFrameBytes_short _ (by rw [hlen]; omega)
    · have hpl : (([129, payload.length] : List Nat) ++ payload).getD 1 0 % 128
          = payload.length := by
        show payload.length % 128 = payload.length
        omega
      rw [parseFrameBytes_tier1 _ (by rw [hlen]; omega) (by rw [hpl]; omega), hpl]
      exact parseFrameTail_none _ _ _ (by rw [hlen]; omega)
  · by_cases h2 : payload.length < 65536
    · have hframe : send_websocket_frame payload
          = (129 :: 126 :: toBytesBE payload.length 2) ++ payload := by
        simp [send_websocket_frame, h1, h2]
      have hlen : ((129 :: 126 :: toBytesBE payload.length 2) ++ payload).length
          = 4 + payload.length := by simp [List.length_append, length_toBytesBE]; omega
      have hgd : ((129 :: 126 :: toBytesBE payload.length 2) ++ payload).getD 1 0
          = 126 := rfl
      have hpl : ((129 :: 126 :: toBytesBE payload.length 2) ++ payload).getD 1 0 % 128
          = 126 := by simp [hgd]
      rw [hframe, parseFrameBytes_tier2 _ (by rw [hlen]; omega) hpl (by rw [hlen]; omega)]
      have hdrop : ((129 :: 126 :: toBytesBE payload.length 2) ++ payload).drop 2
          = toBytesBE payload.length 2 ++ payload := rfl
      have htake : (toBytesBE payload.length 2 ++ payload).take 2
          = toBytesBE payload.length 2 := List.take_left' (length_toBytesBE _ _)
      have hval : fromBytesBE (toBytesBE payload.length 2) = payload.length :=
        fromBytesBE_toBytesBE_of_lt (by norm_num; omega)
      rw [hdrop, htake, hval]
      exact parseFrameTail_none _ _ _ (by rw [hlen]; omega)
    · have hframe : send_websocket_frame payload
          = (129 :: 127 :: toBytesBE payload.length 8) ++ payload := by
        simp [send_websocket_frame, h1, h2]
      have hlen : ((129 :: 127 :: toBytesBE payload.length 8) ++ payload).length
          = 10 + payload.length := by simp [List.length_append, length_toBytesBE]; omega
      have hgd : ((129 :: 127 :: toBytesBE payload.length 8) ++ payload).getD 1 0
          = 127 := rfl
      have hpl : ((129 :: 127 :: toBytesBE payload.length 8) ++ payload).getD 1 0 % 128
          = 127 := by simp [hgd]
      rw [hframe, parseFrameBytes_tier3 _ (by rw [hlen]; omega) hpl (by rw [hlen]; omega)]
      have hdrop : ((129 :: 127 :: toBytesBE payload.length 8) ++ payload).drop 2
          = toBytesBE payload.length 8 ++ payload := rfl
      have htake : (toBytesBE payload.length 8 ++ payload).take 8
          = toBytesBE payload.length 8 := List.take_left' (length_toBytesBE _ _)
      have hval : fromBytesBE (toBytesBE payload.length 8) = payload.length :=
        fromBytesBE_toBytesBE_of_lt hsz
      rw [hdrop, htake, hval]
      exact parseFrameTail_none _ _ _ (by rw [hlen]; omega)

/-! ## Claim C4: encoder-decoder roundtrip -/

/-- C4 counterexample: for the in-set payload length 10, decoding the frame
    the encoder builds does not return the payload: the decoder requires a
    client-side mask that the server-side encoder never adds, so it answers
    need-more-data (none) instead of the original bytes. -/
theorem C4_counterexample :
    (List.replicate 10 65).length = 10 ∧
    parse_websocket_frame (send_websocket_frame (List.replicate 10 65)) = none ∧
    parseFrameBytes (send_websocket_frame (List.replicate 10 65)) = none := by
  decide

/-- C4 (amended): the decoder inverts the encoder only across the client-side
    masking the decoder assumes.  For every payload (hence for every length in
    the set 0, 10, 125, 126, 1000, 65535, 65536) and every 4-byte mask,
    parseFrameBytes on the masked frame carrying exactly the header byte and
    three-tier length field that send_websocket_message builds returns the
    original payload bytes exactly, while parse_websocket_frame applied
    directly to the unmasked encoder output returns need-more-data. -/
theorem C4_masked_roundtrip (mask payload : List Nat) (hm : mask.length = 4)
    (hsz : payload.length < 256 ^ 8) :
    parseFrameBytes (maskedClientFrame mask payload) = some payload ∧
    parse_websocket_frame (send_websocket_frame payload) = none := by
  refine ⟨parse_maskedClientFrame mask payload hm hsz, ?_⟩
  simp [parse_websocket_frame, parse_send_none payload hsz]

/-- C4 witness: the masked roundtrip theorem instantiated at a 10-byte
    payload and a concrete 4-byte mask. -/
theorem C4_witness :
    ([1, 2, 3, 4] : List Nat).length = 4 ∧
    parseFrameBytes (maskedClientFrame [1, 2, 3, 4] (List.replicate 10 65))
      = some (List.replicate 10 65) :=
  ⟨by decide,
   (C4_masked_roundtrip [1, 2, 3, 4] (List.replicate 10 65) (by decide) (by decide)).1⟩

/-! ## Claim C5: short buffers -/

/-- C5: decoding any buffer of fewer than 6 bytes yields the need-more-data
    result none, whatever the contents of those bytes, both at the byte layer
    and after the text decode; the embedding is a total function, mirroring
    that parse_websocket_frame never raises. -/
theorem C5_short_input_need_more_data (data : List Nat) (h : data.length < 6) :
    parse_websocket_frame data = none ∧ parseFrameBytes data = none := by
  have hb := parseFrameBytes_short data h
  exact ⟨by simp [parse_websocket_frame, hb], hb⟩

/-- C5 witness: a concrete 5-byte buffer. -/
theorem C5_witness :
    ([129, 129, 7, 7, 7] : List Nat).length < 6 ∧
    parse_websocket_frame [129, 129, 7, 7, 7] = none :=
  ⟨by decide, (C5_short_input_need_more_data [129, 129, 7, 7, 7] (by decide)).1⟩

/-! ## Claim C10: decoder totality -/

/-- C10: the frame decoder is total over arbitrary byte strings: every input
    yields either a decoded text string or the need-more-data none; truncated
    frames using the 126 marker (fewer than 8 bytes) or the 127 marker (fewer
    than 14 bytes) yield none, buffers shorter than the declared payload plus
    mask yield none, and a complete frame whose payload is not valid UTF-8
    still yields a string, with the offending bytes dropped. -/
theorem C10_decoder_total :
    (∀ data : List Nat, parse_websocket_frame data = none ∨
      ∃ s, parse_websocket_frame data = some s) ∧
    (∀ data : List Nat, data.getD 1 0 % 128 = 126 → data.length < 8 →
      parse_websocket_frame data = none) ∧
    (∀ data : List Nat, data.getD 1 0 % 128 = 127 → data.length < 14 →
      parse_websocket_frame data = none) ∧
    (∀ data : List Nat, data.getD 1 0 % 128 < 126 →
      data.length < 6 + data.getD 1 0 % 128 → parse_websocket_frame data = none) ∧
    parse_websocket_frame (maskedClientFrame [0, 0, 0, 0] [255, 72, 105]) = some "Hi" := by
  refine ⟨?_, ?_, ?_, ?_, by decide⟩
  · intro data
    cases h : parseFrameBytes data with
    | none => exact Or.inl (by simp [parse_websocket_frame, h])
    | some bs =>
        exact Or.inr ⟨String.mk (utf8DecodeIgnore bs), by simp [parse_websocket_frame, h]⟩
  · intro data hmark h8
    by_cases h6 : data.length < 6
    · simp [parse_websocket_frame, parseFrameBytes_short data h6]
    · simp [parse_websocket_frame, parseFrameBytes_tier2_short data h6 hmark h8]
  · intro data hmark h14
    by_cases h6 : data.length < 6
    · simp [parse_websocket_frame, parseFrameBytes_short data h6]
    · simp [parse_websocket_frame, parseFrameBytes_tier3_short data h6 hmark h14]
  · intro data hlt hshort
    by_cases h6 : data.length < 6
    · simp [parse_websocket_frame, parseFrameBytes_short data h6]
    · have hb : parseFrameBytes data = none := by
        rw [parseFrameBytes_tier1 data h6 hlt]
        exact parseFrameTail_none _ _ _ (by omega)
      simp [parse_websocket_frame, hb]

/-- C10 witness: the totality theorem instantiated at concrete truncated
    buffers of both extended-length tiers and at a declared payload length
    exceeding the buffer. -/
theorem C10_witness :
    parse_websocket_frame [129, 254, 0, 0, 0, 0, 0] = none ∧
    parse_websocket_frame [129, 255, 9, 9, 9, 9, 9, 9, 9, 9, 9, 9, 9] = none ∧
    parse_websocket_frame [129, 131, 0, 0, 0, 0] = none :=
  ⟨C10_decoder_total.2.1 [129, 254, 0, 0, 0, 0, 0] (by decide) (by decide),
   C10_decoder_total.2.2.1 [129, 255, 9, 9, 9, 9, 9, 9, 9, 9, 9, 9, 9] (by decide) (by decide),
   C10_decoder_total.2.2.2.1 [129, 131, 0, 0, 0, 0] (by decide) (by decide)⟩

/-! ## OTA engine lemmas -/

theorem sumLen_cons (c : List Nat) (rest : List (List Nat)) :
    sumLen (c :: rest) = c.length + sumLen rest := by
  simp [sumLen]

theorem setBoot_not_mem_downloadLoop (chunks : List (List Nat)) :
    ∀ (f : Flash) (wo d e : Nat), OtaEvent.setBoot ∉ (downloadLoop chunks f wo d e).1 := by
  induction chunks with
  | nil => intro f wo d e; simp [downloadLoop]
  | cons c rest ih =>
      intro f wo d e
      simp only [downloadLoop]
      split
      · simp
      · intro h
        simp only [List.mem_cons, List.mem_append] at h
        rcases h with (h | h) | h
        · simp at h
        · revert h
          split <;> simp
        · exact ih _ _ _ _ h

theorem setBoot_not_mem_download (chunks : List (List Nat)) (e : Nat) :
    OtaEvent.setBoot ∉ (download_firmware chunks e).events := by
  simp only [download_firmware]
  simp [setBoot_not_mem_downloadLoop chunks erasedFlash 0 0 e]

theorem setBoot_not_mem_verifyLoopGo (flash : Flash) :
    ∀ (fuel v a : Nat), OtaEvent.setBoot ∉ (verifyLoopGo flash fuel v a).2 := by
  intro fuel
  induction fuel with
  | zero => intro v a; simp [verifyLoopGo]
  | succ k ih =>
      intro v a
      simp only [verifyLoopGo]
      split
      · simp only [List.mem_append, not_or]
        refine ⟨?_, ih _ _⟩
        split <;> simp
      · simp

theorem setBoot_not_mem_verifyLoop (flash : Flash) (v a : Nat) :
    OtaEvent.setBoot ∉ (verifyLoop flash v a).2 :=
  setBoot_not_mem_verifyLoopGo flash (a - v) v a

theorem setBoot_not_mem_verify (sha256hex : List Nat → String) (flash : Flash)
    (c : String) (a : Nat) :
    OtaEvent.setBoot ∉ (verify_firmware sha256hex flash c a).2 := by
  simp only [verify_firmware]
  split <;> simp [setBoot_not_mem_verifyLoop]

theorem verify_firmware_true_iff (sha256hex : List Nat → String) (flash : Flash)
    (c : String) (a : Nat) :
    (verify_firmware sha256hex flash c a).1 = true
      ↔ sha256hex (verifyLoop flash 0 a).1 = c := by
  simp only [verify_firmware]
  split
  · next h => simp [h]
  · next h => simp [h]

/-! ## Claim C1: activation gated on size and checksum checks -/

/-- C1: activate_and_reboot is reached exactly when the downloaded byte count
    equals the declared size and the digest recomputed from the bytes read
    back from the written target partition equals the declared checksum; when
    either check fails the run never sets the boot partition and its last
    progress report has stage error. -/
theorem C1_activation_gated_by_checks (sha256hex : List Nat → String)
    (chunks : List (List Nat)) (info : UpdateInfo) :
    ((perform_ota_update sha256hex chunks info).activated = true
      ↔ ((download_firmware chunks info.size).downloaded = info.size ∧
         sha256hex (verifyLoop (download_firmware chunks info.size).flash 0
            (download_firmware chunks info.size).downloaded).1 = info.checksum)) ∧
    (¬ ((download_firmware chunks info.size).downloaded = info.size ∧
        sha256hex (verifyLoop (download_firmware chunks info.size).flash 0
            (download_firmware chunks info.size).downloaded).1 = info.checksum) →
      OtaEvent.setBoot ∉ (perform_ota_update sha256hex chunks info).events ∧
      ∃ m, (perform_ota_update sha256hex chunks info).events.getLast?
          = some (OtaEvent.report "error" 0 m)) := by
  by_cases h1 : (download_firmware chunks info.size).downloaded = info.size
  · by_cases h2 : sha256hex (verifyLoop (download_firmware chunks info.size).flash 0
        (download_firmware chunks info.size).downloaded).1 = info.checksum
    · have hvt : (verify_firmware sha256hex (download_firmware chunks info.size).flash
          info.checksum (download_firmware chunks info.size).downloaded).1 = true := by
        rw [verify_firmware_true_iff]
        exact h2
      have hperf : perform_ota_update sha256hex chunks info
          = { events := (download_firmware chunks info.size).events
                ++ (verify_firmware sha256hex (download_firmware chunks info.size).flash
                      info.checksum (download_firmware chunks info.size).downloaded).2
                ++ activate_and_reboot
              activated := true } := by
        simp only [perform_ota_update]
        rw [if_neg (fun hne => hne h1), if_neg (by simp [hvt])]
      rw [hperf]
      exact ⟨iff_of_true rfl ⟨h1, h2⟩, fun hn => absurd ⟨h1, h2⟩ hn⟩
    · have hvf : (verify_firmware sha256hex (download_firmware chunks info.size).flash
          info.checksum (download_firmware chunks info.size).downloaded).1 = false := by
        rw [Bool.eq_false_iff]
        intro ht
        rw [verify_firmware_true_iff] at ht
        exact h2 ht
      have hperf : perform_ota_update sha256hex chunks info
          = { events := (download_firmware chunks info.size).events
                ++ (verify_firmware sha256hex (download_firmware chunks info.size).flash
                      info.checksum (download_firmware chunks info.size).downloaded).2
                ++ [OtaEvent.report "error" 0 "OTA失败: 固件校验失败"]
              activated := false } := by
        simp only [perform_ota_update]
        rw [if_neg (fun hne => hne h1), if_pos hvf]
      rw [hperf]
      constructor
      · simp [h2]
      · intro _
        constructor
        · simp only [List.mem_append, not_or]
          exact ⟨⟨setBoot_not_mem_download chunks info.size,
            setBoot_not_mem_verify sha256hex _ _ _⟩, by simp⟩
        · exact ⟨"OTA失败: 固件校验失败", List.getLast?_concat _⟩
  · have hperf : perform_ota_update sha256hex chunks info
        = { events := (download_firmware chunks info.size).events
              ++ [OtaEvent.report "error" 0 ("OTA失败: 下载大小不匹配: "
                    ++ toString (download_firmware chunks info.size).downloaded
                    ++ " != " ++ toString info.size)]
            activated := false } := by
      simp only [perform_ota_update]
      rw [if_pos h1]
    rw [hperf]
    constructor
    · simp [h1]
    · intro _
      refine ⟨?_, "OTA失败: 下载大小不匹配: "
          ++ toString (download_firmware chunks info.size).downloaded
          ++ " != " ++ toString info.size, List.getLast?_concat _⟩
      simp only [List.mem_append, not_or]
      exact ⟨setBoot_not_mem_download chunks info.size, by simp⟩

/-- C1 witness: a passing run (three bytes, matching size and checksum)
    activates, and a failing run (two bytes against declared size three)
    never sets the boot partition and ends on a stage-error report. -/
theorem C1_witness :
    (perform_ota_update wOkHash [[7, 7, 7]] wInfo).activated = true ∧
    (OtaEvent.setBoot ∉ (perform_ota_update wOkHash [[7, 7]] wInfo).events ∧
     ∃ m, (perform_ota_update wOkHash [[7, 7]] wInfo).events.getLast?
        = some (OtaEvent.report "error" 0 m)) :=
  ⟨(C1_activation_gated_by_checks wOkHash [[7, 7, 7]] wInfo).1.mpr
      ⟨by decide, by decide⟩,
   (C1_activation_gated_by_checks wOkHash [[7, 7]] wInfo).2 (by decide)⟩

/-! ## Claim C3: erase-before-write and write offsets -/

/-- C3: in every download run, erase is invoked on the update-target
    partition (which is never the running one) before any write; but the
    block offsets passed to writeblocks do not always strictly increase:
    with a 100-byte short read followed by a 50-byte read (declared size
    150) both writeblocks calls are passed block offset 0, the second
    overwriting the first, so the strictly-increasing-offsets part of the
    claim fails on the code while the byte counter still matches the
    declared size. -/
theorem C3_erase_before_write_and_offset_bug :
    (∀ (chunks : List (List Nat)) (expected : Nat),
      OtaEvent.erase ∈ (download_firmware chunks expected).events ∧
      erasedBeforeWrites (download_firmware chunks expected).events = true) ∧
    (∀ running : Bool, get_next_update running = !running) ∧
    writeBlocks (download_firmware [List.replicate 100 7, List.replicate 50 9] 150).events
      = [0, 0] ∧
    strictlyIncreasing (writeBlocks
      (download_firmware [List.replicate 100 7, List.replicate 50 9] 150).events)
      = false ∧
    (download_firmware [List.replicate 100 7, List.replicate 50 9] 150).downloaded
      = 150 := by
  refine ⟨?_, fun _ => rfl, by decide, by decide, by decide⟩
  intro chunks expected
  exact ⟨by simp [download_firmware], rfl⟩

/-! ## Claim C7: progress reporting -/

theorem downloadLoop_downloaded_le (chunks : List (List Nat)) :
    ∀ (f : Flash) (wo d e : Nat), d ≤ (downloadLoop chunks f wo d e).2.2 := by
  induction chunks with
  | nil => intro f wo d e; simp [downloadLoop]
  | cons c rest ih =>
      intro f wo d e
      simp only [downloadLoop]
      split
      · simp
      · exact le_trans (Nat.le_add_right d c.length) (ih _ _ _ _)

theorem downloadLoop_report_mem (chunks : List (List Nat)) :
    ∀ (f : Flash) (wo d e : Nat) (s : String) (p : Nat) (m : String),
      OtaEvent.report s p m ∈ (downloadLoop chunks f wo d e).1 →
      s = "download" ∧ ∃ dl, d < dl ∧ dl ≤ d + sumLen chunks ∧
        p = 10 + dl * 80 / e ∧ m = dlMsg dl e ∧ (dl % 65536 = 0 ∨ dl = e) := by
  induction chunks with
  | nil => intro f wo d e s p m h; simp [downloadLoop] at h
  | cons c rest ih =>
      intro f wo d e s p m h
      by_cases hc : c = []
      · simp [downloadLoop, hc] at h
      · simp only [downloadLoop, if_neg hc, List.mem_cons, List.mem_append] at h
        rcases h with (h | h) | h
        · exact absurd h (by simp)
        · revert h
          split
          · next hcond =>
              intro h
              simp only [List.mem_singleton] at h
              obtain ⟨hs, hp, hm⟩ := OtaEvent.report.inj h
              refine ⟨hs, d + c.length, ?_, ?_, hp, hm, hcond⟩
              · have := List.length_pos.mpr hc; omega
              · rw [sumLen_cons]; omega
          · intro h; simp at h
        · obtain ⟨hs, dl, h1, h2, h3⟩ := ih _ _ _ _ _ _ _ h
          refine ⟨hs, dl, by omega, ?_, h3⟩
          rw [sumLen_cons]; omega

theorem downloadLoop_report_at_64k (chunks : List (List Nat)) :
    ∀ (f : Flash) (wo d e k : Nat),
      fullButLast chunks = true → d % 4096 = 0 → wo = d → d < k * 65536 →
      k * 65536 ≤ d + sumLen chunks →
      OtaEvent.report "download" (10 + k * 65536 * 80 / e) (dlMsg (k * 65536) e)
        ∈ (downloadLoop chunks f wo d e).1 := by
  induction chunks with
  | nil =>
      intro f wo d e k hfull hmod hwo hlt hle
      simp [sumLen] at hle
      omega
  | cons c rest ih =>
      intro f wo d e k hfull hmod hwo hlt hle
      rw [sumLen_cons] at hle
      cases rest with
      | nil =>
          have hcl : 0 < c.length ∧ c.length ≤ 4096 := by
            simpa [fullButLast] using hfull
          have hcne : c ≠ [] := by
            intro hnil
            rw [hnil] at hcl
            simp at hcl
          have hsum : sumLen ([] : List (List Nat)) = 0 := rfl
          have hkey : k * 65536 = d + c.length := by omega
          have h65 : (d + c.length) % 65536 = 0 := by omega
          simp only [downloadLoop, if_neg hcne]
          rw [if_pos (Or.inl h65)]
          rw [hkey]
          simp
      | cons r rs =>
          have hfull2 : c.length = 4096 ∧ fullButLast (r :: rs) = true := by
            simpa [fullButLast] using hfull
          have hcne : c ≠ [] := by
            intro hnil
            rw [hnil] at hfull2
            simp at hfull2
          by_cases hk : k * 65536 ≤ d + c.length
          · have hkey : k * 65536 = d + c.length := by omega
            have h65 : (d + c.length) % 65536 = 0 := by omega
            simp only [downloadLoop, if_neg hcne]
            rw [if_pos (Or.inl h65)]
            rw [hkey]
            simp
          · have hrec := ih (fun i => if i = wo / 4096 then
                (if c.length = 4096 then c else c ++ List.replicate (4096 - c.length) 255)
                else f i) (wo + c.length) (d + c.length) e k hfull2.2
                (by omega) (by omega) (by omega) (by omega)
            simp only [downloadLoop, if_neg hcne]
            exact List.mem_cons_of_mem _ (List.mem_append_right _ hrec)

theorem downloadLoop_completion_mem (chunks : List (List Nat)) :
    ∀ (f : Flash) (wo d e : Nat),
      (downloadLoop chunks f wo d e).2.2 = e → d < e →
      OtaEvent.report "download" (10 + e * 80 / e) (dlMsg e e)
        ∈ (downloadLoop chunks f wo d e).1 := by
  induction chunks with
  | nil =>
      intro f wo d e hfin hlt
      simp [downloadLoop] at hfin
      omega
  | cons c rest ih =>
      intro f wo d e hfin hlt
      by_cases hc : c = []
      · simp [downloadLoop, hc] at hfin
        omega
      · simp only [downloadLoop, if_neg hc] at hfin ⊢
        by_cases hDone : d + c.length = e
        · rw [if_pos (Or.inr hDone)]
          rw [hDone]
          simp
        · have hmono := downloadLoop_downloaded_le rest
            (fun i => if i = wo / 4096 then
              (if c.length = 4096 then c else c ++ List.replicate (4096 - c.length) 255)
              else f i) (wo + c.length) (d + c.length) e
          rw [hfin] at hmono
          exact List.mem_cons_of_mem _
            (List.mem_append_right _ (ih _ _ _ _ hfin (by omega)))

set_option maxRecDepth 2000 in
/-- C7 counterexample: a single run whose download stage reports the fixed
    values 0 and 100 (outside the formula and outside the 0-10 erase and
    90-100 activation reservations), and a 65700-byte stream of short reads
    in which the loop reports progress exactly once, at completion, so more
    than 64 KiB passes without a report. -/
theorem C7_counterexample :
    OtaEvent.report "download" 0 "准备下载固件..." ∈ (download_firmware c7chunks 65700).events ∧
    OtaEvent.report "download" 5 "擦除Flash分区..." ∈ (download_firmware c7chunks 65700).events ∧
    OtaEvent.report "download" 100 ("下载完成: 65700 bytes")
      ∈ (download_firmware c7chunks 65700).events ∧
    ((downloadLoop c7chunks erasedFlash 0 0 65700).1.filter isReport)
      = [OtaEvent.report "download" 90 (dlMsg 65700 65700)] ∧
    sumLen c7chunks = 65700 := by
  refine ⟨by simp [download_firmware], by simp [download_firmware], ?_, ?_, ?_⟩
  · decide
  · decide
  · decide

/-- C7 (amended): within the download loop every progress report has stage
    download, value 10 + floor(80 * downloaded / expected) and the code
    message, and fires only when the byte counter is a 64 KiB multiple or
    equals the declared size; when the stream consists of full 4 KiB chunks
    (except possibly a shorter last one) a report fires at every 64 KiB
    boundary; and whenever the loop ends with the byte counter equal to the
    declared size a completion report with value 90 fires.  The fixed stage
    reports 0, 5, 10 and 100 around the loop are outside the formula, as the
    counterexample records. -/
theorem C7_loop_progress_formula (chunks : List (List Nat)) (flash : Flash)
    (expected : Nat) (hpos : 0 < expected) :
    (∀ (s : String) (p : Nat) (m : String),
      OtaEvent.report s p m ∈ (downloadLoop chunks flash 0 0 expected).1 →
      s = "download" ∧ ∃ dl, 0 < dl ∧ dl ≤ sumLen chunks ∧
        p = 10 + dl * 80 / expected ∧ m = dlMsg dl expected ∧
        (dl % 65536 = 0 ∨ dl = expected)) ∧
    (fullButLast chunks = true → ∀ k, 0 < k → k * 65536 ≤ sumLen chunks →
      OtaEvent.report "download" (10 + k * 65536 * 80 / expected)
          (dlMsg (k * 65536) expected)
        ∈ (downloadLoop chunks flash 0 0 expected).1) ∧
    ((downloadLoop chunks flash 0 0 expected).2.2 = expected →
      OtaEvent.report "download" 90 (dlMsg expected expected)
        ∈ (downloadLoop chunks flash 0 0 expected).1) := by
  refine ⟨?_, ?_, ?_⟩
  · intro s p m h
    obtain ⟨hs, dl, h1, h2, h3⟩ := downloadLoop_report_mem chunks flash 0 0 expected s p m h
    exact ⟨hs, dl, h1, by omega, h3⟩
  · intro hfull k hk hle
    exact downloadLoop_report_at_64k chunks flash 0 0 expected k hfull (by omega) rfl
      (by omega) (by omega)
  · intro hfin
    have h80 : expected * 80 / expected = 80 := by
      rw [Nat.mul_comm]
      exact Nat.mul_div_cancel 80 hpos
    have := downloadLoop_completion_mem chunks flash 0 0 expected hfin hpos
    rw [h80] at this
    exact this

/-- C7 witness: the amended theorem instantiated on a 16-chunk full-4-KiB
    stream of exactly 64 KiB, giving the 64-KiB-boundary report. -/
theorem C7_witness :
    OtaEvent.report "download" (10 + 1 * 65536 * 80 / 65536) (dlMsg (1 * 65536) 65536)
      ∈ (downloadLoop w7chunks erasedFlash 0 0 65536).1 :=
  (C7_loop_progress_formula w7chunks erasedFlash 65536 (by decide)).2.1
    (by
      have hfc : fullChunk.length = 4096 := by
        simp only [fullChunk, List.length_replicate]
      simp [w7chunks, fullButLast, hfc])
    1 (by decide)
    (by
      have hfc : fullChunk.length = 4096 := by
        simp only [fullChunk, List.length_replicate]
      simp [w7chunks, sumLen, hfc])

/-! ## Dispatcher and sandbox lemmas -/

theorem getLast?_append_pair {α : Type} (l : List α) (a b : α) :
    (l ++ [a, b]).getLast? = some b := by
  rw [show [a, b] = [a] ++ [b] from rfl, ← List.append_assoc]
  exact List.getLast?_concat _

theorem stop_user_code_files (st : DeviceState) :
    (stop_user_code st).2.files = st.files := by
  by_cases ht : st.userCodeThread ≠ none <;> by_cases hmp : st.mainPyRunning <;>
    simp [stop_user_code, ht, hmp]

theorem stop_user_code_no_reply (st : DeviceState) :
    (stop_user_code st).1.filter isReply = [] := by
  by_cases ht : st.userCodeThread ≠ none <;> by_cases hmp : st.mainPyRunning <;>
    simp [stop_user_code, ht, hmp, isReply]

theorem stop_user_code_no_runsCode (st : DeviceState) :
    (stop_user_code st).1.filter runsCode = [] := by
  by_cases ht : st.userCodeThread ≠ none <;> by_cases hmp : st.mainPyRunning <;>
    simp [stop_user_code, ht, hmp, runsCode]

theorem lookup_setFile (files : List (String × String)) (path content : String) :
    (setFile files path content).lookup path = some content := by
  simp [setFile, List.lookup]

/-! ## Claim C2: concurrent ota_update requests -/

/-- C2 counterexample: with one OTA worker thread already started (the only
    notion of a non-IDLE job the code has), a second ota_update is not
    rejected with a busy reply: the dispatcher again replies ota_started and
    spawns a second worker, so two jobs are started. -/
theorem C2_counterexample :
    (handle_message exampleEnv exampleState 1 (some exampleOtaMsg)).2.otaJobsStarted = 1 ∧
    (handle_message exampleEnv
        (handle_message exampleEnv exampleState 1 (some exampleOtaMsg)).2 1
        (some exampleOtaMsg)).1
      = [Effect.startOtaThread 1 (some ⟨"v", "u", 100, "c"⟩),
         Effect.sendReply 1 "ota_started" "OTA升级已启动"] ∧
    (handle_message exampleEnv
        (handle_message exampleEnv exampleState 1 (some exampleOtaMsg)).2 1
        (some exampleOtaMsg)).2.otaJobsStarted = 2 := by
  decide

/-- C2 (amended): the dispatcher performs no busy check: whatever the device
    state, an ota_update message produces exactly one ota_started
    acknowledgment, spawns a new worker thread carrying the update info of
    the message, and increments the started-jobs count, so a concurrent
    request starts a second job instead of being rejected. -/
theorem C2_no_busy_check (env : DispatchEnv) (st : DeviceState) (conn : Nat)
    (m : ControlMsg) (h : m.type? = some "ota_update") :
    handle_message env st conn (some m)
      = ([Effect.startOtaThread conn m.otaInfo?,
          Effect.sendReply conn "ota_started" "OTA升级已启动"],
         { st with otaJobsStarted := st.otaJobsStarted + 1 }) := by
  obtain ⟨t?, ep, op?, pa, oi?⟩ := m
  cases t? with
  | none => exact absurd h (by simp)
  | some t =>
      have ht : t = "ota_update" := by simpa using h
      subst ht
      rfl

/-- C2 witness: the no-busy-check theorem instantiated at the example state
    and message. -/
theorem C2_witness :
    handle_message exampleEnv exampleState 1 (some exampleOtaMsg)
      = ([Effect.startOtaThread 1 (some ⟨"v", "u", 100, "c"⟩),
          Effect.sendReply 1 "ota_started" "OTA升级已启动"],
         { exampleState with otaJobsStarted := exampleState.otaJobsStarted + 1 }) :=
  C2_no_busy_check exampleEnv exampleState 1 exampleOtaMsg rfl

/-! ## Claim C6: malformed and unrecognized messages -/

/-- C6 counterexample: a message with the unrecognized type bogus and a
    message json.loads could not parse produce no reply at all — in
    particular no error-typed reply — although the state, including the
    client list, is unchanged. -/
theorem C6_counterexample :
    handle_message exampleEnv exampleState 1 (some exampleBogusMsg) = ([], exampleState) ∧
    handle_message exampleEnv exampleState 1 none = ([], exampleState) ∧
    ((handle_message exampleEnv exampleState 1 (some exampleBogusMsg)).1.filter isErrorReply)
      = [] := by
  exact ⟨rfl, rfl, rfl⟩

/-- C6 (amended): a malformed message (json.loads raised), a message without
    a type field, and a message whose type matches no branch are silently
    dropped: no reply of any kind is sent (the error is only logged), no
    effect is produced, and the state — in particular the connection list —
    is unchanged, so the connection stays open. -/
theorem C6_silent_drop (env : DispatchEnv) (st : DeviceState) (conn : Nat)
    (msg? : Option ControlMsg)
    (h : msg? = none ∨ ∃ m, msg? = some m ∧ (m.type? = none ∨
      ∃ t, m.type? = some t ∧
        t ∉ (["ping", "execute", "file_operation", "info", "ota_check",
              "ota_update"] : List String))) :
    handle_message env st conn msg? = ([], st) := by
  rcases h with rfl | ⟨m, rfl, hm⟩
  · rfl
  · obtain ⟨t?, ep, op?, pa, oi?⟩ := m
    rcases hm with hnone | ⟨t, ht, hnot⟩
    · have hn : t? = none := by simpa using hnone
      subst hn
      rfl
    · have hs : t? = some t := by simpa using ht
      subst hs
      simp only [List.mem_cons, List.not_mem_nil, or_false, not_or] at hnot
      obtain ⟨h1, h2, h3, h4, h5, h6⟩ := hnot
      simp only [handle_message]
      rw [if_neg h1, if_neg h2, if_neg h3, if_neg h4, if_neg h5, if_neg h6]

/-- C6 witness: the silent-drop theorem instantiated at a concrete
    unrecognized message. -/
theorem C6_witness :
    handle_message exampleEnv exampleStateThread 2 (some exampleBogusMsg)
      = ([], exampleStateThread) :=
  C6_silent_drop exampleEnv exampleStateThread 2 (some exampleBogusMsg)
    (Or.inr ⟨exampleBogusMsg, rfl, Or.inr ⟨"bogus", rfl, by decide⟩⟩)

/-! ## Claim C8: stopping the previous background program first -/

/-- C8: starting an ephemeral background program (code with an unbounded-loop
    pattern) while a previous one is running first sets the shared
    cancellation flag, then sleeps the grace period, and only afterwards —
    having cleared the flag — starts the new thread and sends the single
    confirmation reply; the thread slot then holds exactly the new program,
    so at most one ephemeral background program is active. -/
theorem C8_stop_previous_before_start (capture : String → ExecCapture)
    (st : DeviceState) (code : String) (conn : Nat)
    (hloop : hasInfiniteLoop code = true) (hprev : st.userCodeThread ≠ none) :
    (execute_temporary_code capture st code conn).1
      = [Effect.setStopFlag true, Effect.sleepGrace]
        ++ (if st.mainPyRunning then [Effect.setStopFlag true] else [])
        ++ [Effect.setStopFlag false, Effect.startUserThread code,
            Effect.sendReply conn "output" "✅ [立即运行] 程序已在后台启动\n发送 Ctrl+C 可停止程序"]
      ∧ (execute_temporary_code capture st code conn).2.userCodeThread = some code
      ∧ (execute_temporary_code capture st code conn).2.stopFlag = false := by
  by_cases hmp : st.mainPyRunning <;>
    simp [execute_temporary_code, stop_user_code, hloop, hprev, hmp]

/-- C8 witness: the theorem instantiated at a state with a running background
    program and a concrete unbounded-loop program. -/
theorem C8_witness :
    hasInfiniteLoop "while True: pass" = true ∧
    (execute_temporary_code exampleCapture exampleStateThread "while True: pass" 1).1
      = [Effect.setStopFlag true, Effect.sleepGrace]
        ++ (if exampleStateThread.mainPyRunning then [Effect.setStopFlag true] else [])
        ++ [Effect.setStopFlag false, Effect.startUserThread "while True: pass",
            Effect.sendReply 1 "output" "✅ [立即运行] 程序已在后台启动\n发送 Ctrl+C 可停止程序"]
      ∧ (execute_temporary_code exampleCapture exampleStateThread "while True: pass" 1).2.userCodeThread
        = some "while True: pass" :=
  ⟨by decide,
   (C8_stop_previous_before_start exampleCapture exampleStateThread "while True: pass" 1
      (by decide) (by decide)).1,
   (C8_stop_previous_before_start exampleCapture exampleStateThread "while True: pass" 1
      (by decide) (by decide)).2.1⟩

/-! ## Claim C9: persistent mode -/

/-- C9 counterexample: a persistent-mode execute for foo.py writes the file
    and replies, but the reply does not state that a restart is required (it
    explains importing the module instead), against the claim that every
    persistent-mode reply states a restart is required. -/
theorem C9_counterexample :
    (handle_message exampleEnv exampleState 1 (some exampleFooMsg)).1
      = [Effect.writeFile "/foo.py" "print(1)",
         Effect.sendReply 1 "output"
           "✅ [保存到设备] 代码已保存为 foo.py\n💡 使用 import foo 加载此模块"] ∧
    strContains "✅ [保存到设备] 代码已保存为 foo.py\n💡 使用 import foo 加载此模块" "重启"
      = false := by
  decide

/-- C9 (amended): every persistent-mode execute is routed to
    save_persistent_code, which writes the submitted code verbatim to the
    target file, never executes it (no inline exec and no thread start), and
    sends exactly one reply; the reply states that a restart is required
    exactly when the filename is main.py, and otherwise explains importing
    the saved module. -/
theorem C9_persistent_saves_without_executing (env : DispatchEnv)
    (st : DeviceState) (conn : Nat) (cmd fname : String) (op? : Option String)
    (pa : String) (oi? : Option UpdateInfo) :
    handle_message env st conn
        (some ⟨some "execute", ExecPayload.withMode "persistent" cmd fname, op?, pa, oi?⟩)
      = save_persistent_code st cmd fname conn ∧
    (save_persistent_code st cmd fname conn).2.files.lookup ("/" ++ fname) = some cmd ∧
    ((save_persistent_code st cmd fname conn).1.filter runsCode) = [] ∧
    ((save_persistent_code st cmd fname conn).1.filter isReply).length = 1 ∧
    (fname = "main.py" →
      (save_persistent_code st cmd fname conn).1.getLast?
        = some (Effect.sendReply conn "output"
            "✅ [保存到设备] 代码已永久保存 (main.py)\n💾 开机自动运行：设备重启后自动执行\n🔄 发送 reboot 命令可重启设备")
      ∧ strContains
          "✅ [保存到设备] 代码已永久保存 (main.py)\n💾 开机自动运行：设备重启后自动执行\n🔄 发送 reboot 命令可重启设备"
          "重启" = true) ∧
    (fname ≠ "main.py" →
      (save_persistent_code st cmd fname conn).1.getLast?
        = some (Effect.sendReply conn "output"
            ("✅ [保存到设备] 代码已保存为 " ++ fname ++ "\n💡 使用 import "
              ++ strReplace fname ".py" "" ++ " 加载此模块"))) := by
  refine ⟨rfl, ?_, ?_, ?_, ?_, ?_⟩
  · by_cases hmp : st.mainPyRunning <;>
      simp [save_persistent_code, hmp, stop_user_code_files, lookup_setFile]
  · by_cases hmp : st.mainPyRunning <;>
      by_cases hf : fname = "main.py" <;>
      simp [save_persistent_code, hmp, hf, List.filter_append, stop_user_code_no_runsCode,
        runsCode]
  · by_cases hmp : st.mainPyRunning <;>
      by_cases hf : fname = "main.py" <;>
      simp [save_persistent_code, hmp, hf, List.filter_append, stop_user_code_no_reply,
        isReply]
  · intro hf
    refine ⟨?_, by decide⟩
    by_cases hmp : st.mainPyRunning <;>
      simp [save_persistent_code, hmp, hf, getLast?_append_pair]
  · intro hf
    by_cases hmp : st.mainPyRunning <;>
      simp [save_persistent_code, hmp, hf, getLast?_append_pair]

/-- C9 witness: the amended theorem instantiated at the main.py scenario of
    the claim: the file is persisted verbatim, nothing executes, and the
    single reply states a restart is required. -/
theorem C9_witness :
    handle_message exampleEnv exampleState 1 (some exampleMainMsg)
      = save_persistent_code exampleState "print(1)" "main.py" 1 ∧
    (save_persistent_code exampleState "print(1)" "main.py" 1).2.files.lookup "/main.py"
      = some "print(1)" ∧
    ((save_persistent_code exampleState "print(1)" "main.py" 1).1.filter runsCode) = [] ∧
    strContains
      "✅ [保存到设备] 代码已永久保存 (main.py)\n💾 开机自动运行：设备重启后自动执行\n🔄 发送 reboot 命令可重启设备"
      "重启" = true :=
  ⟨(C9_persistent_saves_without_executing exampleEnv exampleState 1 "print(1)" "main.py"
      none "/" none).1,
   (C9_persistent_saves_without_executing exampleEnv exampleState 1 "print(1)" "main.py"
      none "/" none).2.1,
   (C9_persistent_saves_without_executing exampleEnv exampleState 1 "print(1)" "main.py"
      none "/" none).2.2.1,
   ((C9_persistent_saves_without_executing exampleEnv exampleState 1 "print(1)" "main.py"
      none "/" none).2.2.2.2.1 rfl).2⟩

end Tansuodou
